import Mathlib

/-
Verification of the ESP32 iBeacon firmware (repository `esp-32-ibeacon`).

The development shallowly embeds the two source files:
  * `src/main/esp_ibeacon_api.h` — the iBeacon packet layout, the
    `ENDIAN_CHANGE_U16` byte-swap macro and the codec interface;
  * `src/main/main.c` — NVS identity persistence, the GAP event handler,
    the OTA update loop, UUID-string parsing and the boot orchestration.

Bytes are modelled as `Nat` values `< 256`, 16-bit quantities as `Nat`
values `< 65536`, ESP error codes (`esp_err_t`) as `Int`.  Buffers are
`List Nat`.  External effects (webhooks, LED, delays, restart) are
modelled as explicit action traces; the NVS flash is modelled as a record
of the two optional stored keys, with failure injection for each NVS
primitive mirroring the `esp_err_t` results the C code branches on.
-/

namespace IBeacon

/-! ## Configuration constants (main.c, CONFIGURATION section) -/

/-- `#define DEFAULT_BEACON_MAJOR 100` (main.c line 72). -/
def DEFAULT_BEACON_MAJOR : Nat := 100

/-- `#define DEFAULT_BEACON_MINOR 15` (main.c line 73). -/
def DEFAULT_BEACON_MINOR : Nat := 15

/-- `#define ADVERTISING_INTERVAL_MS 50` (main.c line 77). -/
def ADVERTISING_INTERVAL_MS : Nat := 50

/-- `#define OTA_CHECK_INTERVAL_SEC 300` (main.c line 103). -/
def OTA_CHECK_INTERVAL_SEC : Nat := 300

/-- `#define BEACON_UUID_STRING ...` (main.c line 69). -/
def BEACON_UUID_STRING : String := "ED17A803-D1AC-4F04-A2F0-7802B4C9C70C"

/-! ## ESP error codes (`esp_err_t`, platform constants used by main.c) -/

/-- `ESP_OK = 0`. -/
def ESP_OK : Int := 0

/-- `ESP_FAIL = -1`. -/
def ESP_FAIL : Int := -1

/-- `ESP_ERR_NOT_FOUND = 0x105`. -/
def ESP_ERR_NOT_FOUND : Int := 0x105

/-- `ESP_ERR_NVS_NOT_FOUND = 0x1102`. -/
def ESP_ERR_NVS_NOT_FOUND : Int := 0x1102

/-- `ESP_BT_STATUS_SUCCESS = 0` (esp_bt_status_t). -/
def ESP_BT_STATUS_SUCCESS : Nat := 0

/-! ## The byte-swap macro (esp_ibeacon_api.h line 29)

`#define ENDIAN_CHANGE_U16(x) ((((x)&0xFF00)>>8) + (((x)&0xFF)<<8))` -/

/-- The `ENDIAN_CHANGE_U16` macro of esp_ibeacon_api.h, literally:
mask the high byte and shift it down, mask the low byte and shift it up,
add the two.  Applied by the firmware to `uint16_t` values. -/
def ENDIAN_CHANGE_U16 (x : Nat) : Nat :=
  ((x &&& 0xFF00) >>> 8) + ((x &&& 0xFF) <<< 8)

theorem shiftRight_and_distrib (x n k : Nat) :
    (x &&& n) >>> k = (x >>> k) &&& (n >>> k) := by
  apply Nat.eq_of_testBit_eq
  intro i
  simp [Nat.testBit_shiftRight, Nat.testBit_and]

theorem and_255_eq_mod (x : Nat) : x &&& 255 = x % 256 := by
  have h : (255 : Nat) = 2 ^ 8 - 1 := by norm_num
  rw [h, Nat.and_pow_two_sub_one_eq_mod]

/-- Arithmetic form of the macro on 16-bit inputs: the result is
`low byte * 256 + high byte`. -/
theorem ENDIAN_CHANGE_U16_eq (x : Nat) (hx : x < 65536) :
    ENDIAN_CHANGE_U16 x = x % 256 * 256 + x / 256 := by
  unfold ENDIAN_CHANGE_U16
  rw [shiftRight_and_distrib]
  have h1 : (0xFF00 : Nat) >>> 8 = 255 := by decide
  rw [h1, and_255_eq_mod, and_255_eq_mod, Nat.shiftLeft_eq, Nat.shiftRight_eq_div_pow]
  have h2 : (2 : Nat) ^ 8 = 256 := by norm_num
  rw [h2]
  have h3 : x / 256 < 256 := by omega
  have h4 : x / 256 % 256 = x / 256 := Nat.mod_eq_of_lt h3
  omega

/-- The macro is an involution on 16-bit values. -/
theorem ENDIAN_CHANGE_U16_involutive (x : Nat) (hx : x < 65536) :
    ENDIAN_CHANGE_U16 (ENDIAN_CHANGE_U16 x) = x := by
  rw [ENDIAN_CHANGE_U16_eq x hx]
  have hdiv : x / 256 < 256 := by omega
  have h1 : x % 256 * 256 + x / 256 < 65536 := by omega
  rw [ENDIAN_CHANGE_U16_eq _ h1]
  omega

/-! ## Beacon packet codec

The struct layout comes from esp_ibeacon_api.h (`esp_ble_ibeacon_head_t`,
`esp_ble_ibeacon_vendor_t`, `esp_ble_ibeacon_t`, all `__attribute__((packed))`,
9 + 21 = 30 bytes).  The defining translation unit of `ibeacon_common_head`,
`esp_ble_config_ibeacon_data`, `esp_ble_is_ibeacon_packet` and
`esp_ble_set_ibeacon_params` is not part of this repository (only the header
`esp_ibeacon_api.h` is), so their bodies are modelled from the spec. -/

/-- `esp_ble_ibeacon_vendor_t` (esp_ibeacon_api.h lines 40-45): a 16-byte
proximity UUID, 16-bit major and minor, and a power byte.  Multi-byte fields
are held host-endian here; conversion happens only at the encode/decode
boundary, as the spec requires. -/
structure esp_ble_ibeacon_vendor_t where
  proximity_uuid : List Nat
  major : Nat
  minor : Nat
  measured_power : Nat
  deriving DecidableEq, Repr

/-- A well-formed `BeaconIdentity`: a 16-byte UUID (each entry a byte),
16-bit major and minor, and a power byte. -/
def validVendorConfig (v : esp_ble_ibeacon_vendor_t) : Prop :=
  v.proximity_uuid.length = 16 ∧ (∀ b ∈ v.proximity_uuid, b < 256) ∧
    v.major < 65536 ∧ v.minor < 65536 ∧ v.measured_power < 256

instance (v : esp_ble_ibeacon_vendor_t) : Decidable (validVendorConfig v) := by
  unfold validVendorConfig
  infer_instance

/-- Modelled from the spec: the constant part of the iBeacon packet,
`ibeacon_common_head` (declared `extern` in esp_ibeacon_api.h line 56; its
defining translation unit is missing from this repository).  Per the spec it
is a fixed 9-byte header — flags segment, length/type markers, 16-bit company
identifier, 16-bit beacon-type marker — defined once, reused unchanged for
every packet and not user-configurable.  Listed here in packed wire order. -/
def ibeacon_common_head_bytes : List Nat :=
  [0x02, 0x01, 0x06, 0x1A, 0xFF, 0x4C, 0x00, 0x02, 0x15]

/-- Serialize a `uint16_t` field of a packed struct on the little-endian host:
low byte first. -/
def u16_store_le (x : Nat) : List Nat := [x % 256, x / 256 % 256]

/-- Modelled from the spec: `esp_ble_config_ibeacon_data`
(declared in esp_ibeacon_api.h line 60; its defining translation unit is
missing from this repository).  Per the spec, Encode produces the fixed
30-byte `AdvertisingPacket`: the constant 9-byte header immediately followed
by the 16-byte UUID, big-endian major, big-endian minor and the power byte.
Big-endianness is obtained by applying the source's `ENDIAN_CHANGE_U16`
macro at the encode boundary and laying the result down through the packed
little-endian struct fields of `esp_ble_ibeacon_t`. -/
def esp_ble_config_ibeacon_data (v : esp_ble_ibeacon_vendor_t) : List Nat :=
  ibeacon_common_head_bytes ++ v.proximity_uuid ++
    u16_store_le (ENDIAN_CHANGE_U16 v.major) ++
    u16_store_le (ENDIAN_CHANGE_U16 v.minor) ++
    [v.measured_power]

/-- Modelled from the spec: `esp_ble_is_ibeacon_packet`
(declared in esp_ibeacon_api.h line 58; its defining translation unit is
missing from this repository).  Per the spec, Recognize returns true iff the
payload length matches the fixed total (30 bytes) and the leading header
bytes match the constant header byte-for-byte; the length is checked before
any byte comparison is attempted. -/
def esp_ble_is_ibeacon_packet (adv_data : List Nat) (adv_data_len : Nat) : Bool :=
  if adv_data_len = 30 then
    decide (adv_data.take 9 = ibeacon_common_head_bytes)
  else
    false

/-- Read a `uint16_t` field of a packed struct on the little-endian host:
low byte at `off`, high byte at `off + 1`. -/
def u16_load_le (p : List Nat) (off : Nat) : Nat :=
  p.getD off 0 + 256 * p.getD (off + 1) 0

/-- Modelled from the spec: Decode — extract the UUID, the major
(un-swapping big-endian to host order with the source's `ENDIAN_CHANGE_U16`
macro), the minor and the calibrated power from a payload that has passed
Recognize.  Field offsets follow the packed `esp_ble_ibeacon_t` layout:
header 0..8, UUID 9..24, major 25..26, minor 27..28, power 29. -/
def ibeacon_decode (p : List Nat) : esp_ble_ibeacon_vendor_t :=
  { proximity_uuid := (p.drop 9).take 16
    major := ENDIAN_CHANGE_U16 (u16_load_le p 25)
    minor := ENDIAN_CHANGE_U16 (u16_load_le p 27)
    measured_power := p.getD 29 0 }

theorem encode_length (v : esp_ble_ibeacon_vendor_t)
    (h : v.proximity_uuid.length = 16) :
    (esp_ble_config_ibeacon_data v).length = 30 := by
  simp [esp_ble_config_ibeacon_data, ibeacon_common_head_bytes, u16_store_le, h]

theorem encode_drop_25 (v : esp_ble_ibeacon_vendor_t)
    (h : v.proximity_uuid.length = 16) :
    (esp_ble_config_ibeacon_data v).drop 25 =
      u16_store_le (ENDIAN_CHANGE_U16 v.major) ++
        u16_store_le (ENDIAN_CHANGE_U16 v.minor) ++ [v.measured_power] := by
  simp [esp_ble_config_ibeacon_data, ibeacon_common_head_bytes,
    List.drop_append_eq_append_drop, h]

theorem getD_drop_add (p : List Nat) (n k : Nat) (hn : n ≤ p.length) :
    p.getD (n + k) 0 = (p.drop n).getD k 0 := by
  have hlt : (p.take n).length = n := by rw [List.length_take]; omega
  conv_lhs => rw [← List.take_append_drop n p]
  rw [List.getD_append_right _ _ _ _ (by omega)]
  rw [hlt]
  have hk : n + k - n = k := by omega
  rw [hk]

theorem encode_take_9 (v : esp_ble_ibeacon_vendor_t) :
    (esp_ble_config_ibeacon_data v).take 9 = ibeacon_common_head_bytes := by
  simp [esp_ble_config_ibeacon_data, ibeacon_common_head_bytes,
    List.take_append_eq_append_take]

theorem encode_uuid (v : esp_ble_ibeacon_vendor_t)
    (h16 : v.proximity_uuid.length = 16) :
    ((esp_ble_config_ibeacon_data v).drop 9).take 16 = v.proximity_uuid := by
  simp [esp_ble_config_ibeacon_data, ibeacon_common_head_bytes,
    List.drop_append_eq_append_drop, List.take_append_eq_append_take, h16]

/-- The five bytes of the packet after the header and UUID: big-endian major,
big-endian minor, then the power byte. -/
theorem encode_drop_25_bytes (v : esp_ble_ibeacon_vendor_t)
    (h16 : v.proximity_uuid.length = 16)
    (hM : v.major < 65536) (hm : v.minor < 65536) :
    (esp_ble_config_ibeacon_data v).drop 25 =
      [v.major / 256, v.major % 256, v.minor / 256, v.minor % 256,
        v.measured_power] := by
  rw [encode_drop_25 v h16, ENDIAN_CHANGE_U16_eq _ hM, ENDIAN_CHANGE_U16_eq _ hm]
  have e1 : (v.major % 256 * 256 + v.major / 256) % 256 = v.major / 256 := by omega
  have e2 : (v.major % 256 * 256 + v.major / 256) / 256 % 256 = v.major % 256 := by
    omega
  have e3 : (v.minor % 256 * 256 + v.minor / 256) % 256 = v.minor / 256 := by omega
  have e4 : (v.minor % 256 * 256 + v.minor / 256) / 256 % 256 = v.minor % 256 := by
    omega
  simp [u16_store_le, e1, e2, e3, e4]

/-- **C7.** For every payload byte sequence and every length value, Recognize
(`esp_ble_is_ibeacon_packet`) never reads out of bounds: the length is checked
before any byte comparison, so any payload shorter than the fixed 9-byte
header (indeed any length other than the fixed 30-byte total) returns false
without error, and a payload of the correct total length whose leading header
bytes mismatch the constant header returns false. -/
theorem recognize_rejects_malformed :
    (∀ p : List Nat, p.length < 9 → esp_ble_is_ibeacon_packet p p.length = false) ∧
    (∀ (p : List Nat) (len : Nat), len ≠ 30 →
      esp_ble_is_ibeacon_packet p len = false) ∧
    (∀ p : List Nat, p.length = 30 → p.take 9 ≠ ibeacon_common_head_bytes →
      esp_ble_is_ibeacon_packet p p.length = false) := by
  refine ⟨?_, ?_, ?_⟩
  · intro p h
    unfold esp_ble_is_ibeacon_packet
    rw [if_neg (by omega)]
  · intro p len h
    unfold esp_ble_is_ibeacon_packet
    rw [if_neg h]
  · intro p hlen hne
    simp [esp_ble_is_ibeacon_packet, hlen, hne]

theorem recognize_rejects_malformed_witness :
    esp_ble_is_ibeacon_packet [0x02] 1 = false ∧
    esp_ble_is_ibeacon_packet [0x02, 0x01] 29 = false ∧
    esp_ble_is_ibeacon_packet (List.replicate 30 0) 30 = false := by
  refine ⟨?_, ?_, ?_⟩
  · exact recognize_rejects_malformed.1 [0x02] (by decide)
  · exact recognize_rejects_malformed.2.1 [0x02, 0x01] 29 (by decide)
  · have h := recognize_rejects_malformed.2.2 (List.replicate 30 0)
      (by decide) (by decide)
    simpa using h

/-- **C8.** For every valid `BeaconIdentity` (16-byte UUID, 16-bit major and
minor, a power byte), encoding it and applying Recognize yields true, and
decoding the encoded packet yields the original identity:
`Recognize(Encode(id)) = true` and `Decode(Encode(id)) = id`. -/
theorem encode_recognize_decode_roundtrip (v : esp_ble_ibeacon_vendor_t)
    (hv : validVendorConfig v) :
    esp_ble_is_ibeacon_packet (esp_ble_config_ibeacon_data v)
        (esp_ble_config_ibeacon_data v).length = true ∧
      ibeacon_decode (esp_ble_config_ibeacon_data v) = v := by
  obtain ⟨h16, _hb, hM, hm, _hp⟩ := hv
  have hlen : (esp_ble_config_ibeacon_data v).length = 30 := encode_length v h16
  have hdrop := encode_drop_25_bytes v h16 hM hm
  constructor
  · rw [hlen]
    unfold esp_ble_is_ibeacon_packet
    rw [if_pos rfl, encode_take_9]
    exact decide_eq_true rfl
  · have g25 : (esp_ble_config_ibeacon_data v).getD 25 0 = v.major / 256 := by
      rw [show (25 : Nat) = 25 + 0 from rfl, getD_drop_add _ _ _ (by omega), hdrop]
      rfl
    have g26 : (esp_ble_config_ibeacon_data v).getD 26 0 = v.major % 256 := by
      rw [show (26 : Nat) = 25 + 1 from rfl, getD_drop_add _ _ _ (by omega), hdrop]
      rfl
    have g27 : (esp_ble_config_ibeacon_data v).getD 27 0 = v.minor / 256 := by
      rw [show (27 : Nat) = 25 + 2 from rfl, getD_drop_add _ _ _ (by omega), hdrop]
      rfl
    have g28 : (esp_ble_config_ibeacon_data v).getD 28 0 = v.minor % 256 := by
      rw [show (28 : Nat) = 25 + 3 from rfl, getD_drop_add _ _ _ (by omega), hdrop]
      rfl
    have g29 : (esp_ble_config_ibeacon_data v).getD 29 0 = v.measured_power := by
      rw [show (29 : Nat) = 25 + 4 from rfl, getD_drop_add _ _ _ (by omega), hdrop]
      rfl
    unfold ibeacon_decode
    have hEmaj : u16_load_le (esp_ble_config_ibeacon_data v) 25 =
        ENDIAN_CHANGE_U16 v.major := by
      unfold u16_load_le
      rw [g25, ENDIAN_CHANGE_U16_eq _ hM]
      have h26' : (25 : Nat) + 1 = 26 := rfl
      rw [h26', g26]
      omega
    have hEmin : u16_load_le (esp_ble_config_ibeacon_data v) 27 =
        ENDIAN_CHANGE_U16 v.minor := by
      unfold u16_load_le
      rw [g27, ENDIAN_CHANGE_U16_eq _ hm]
      have h28' : (27 : Nat) + 1 = 28 := rfl
      rw [h28', g28]
      omega
    rw [hEmaj, hEmin, ENDIAN_CHANGE_U16_involutive _ hM,
      ENDIAN_CHANGE_U16_involutive _ hm, encode_uuid v h16, g29]

/-- A concrete identity: the firmware's own UUID bytes, the compiled-in
default major/minor and a representative calibrated power byte. -/
def sample_vendor_config : esp_ble_ibeacon_vendor_t :=
  { proximity_uuid := [0xED, 0x17, 0xA8, 0x03, 0xD1, 0xAC, 0x4F, 0x04,
      0xA2, 0xF0, 0x78, 0x02, 0xB4, 0xC9, 0xC7, 0x0C]
    major := 100
    minor := 15
    measured_power := 0xC5 }

theorem encode_recognize_decode_roundtrip_witness :
    validVendorConfig sample_vendor_config ∧
      (esp_ble_is_ibeacon_packet (esp_ble_config_ibeacon_data sample_vendor_config)
          (esp_ble_config_ibeacon_data sample_vendor_config).length = true ∧
        ibeacon_decode (esp_ble_config_ibeacon_data sample_vendor_config) =
          sample_vendor_config) :=
  ⟨by decide, encode_recognize_decode_roundtrip sample_vendor_config (by decide)⟩

/-- **C9.** Encoding writes major (and minor) in big-endian byte order
regardless of host byte order: the high byte of the major lands at offset 25
of the packet, the low byte at offset 26 — for major = 0x1234 the byte 0x12 is
placed before the byte 0x34 — and the 16-bit byte-swap macro
`ENDIAN_CHANGE_U16` exchanges the high and low bytes exactly. -/
theorem encode_big_endian (v : esp_ble_ibeacon_vendor_t)
    (hv : validVendorConfig v) :
    ((esp_ble_config_ibeacon_data v).getD 25 0 = v.major / 256 ∧
      (esp_ble_config_ibeacon_data v).getD 26 0 = v.major % 256 ∧
      (esp_ble_config_ibeacon_data v).getD 27 0 = v.minor / 256 ∧
      (esp_ble_config_ibeacon_data v).getD 28 0 = v.minor % 256) ∧
    (∀ x : Nat, x < 65536 →
      ENDIAN_CHANGE_U16 x = x % 256 * 256 + x / 256) := by
  obtain ⟨h16, _hb, hM, hm, _hp⟩ := hv
  have hlen : (esp_ble_config_ibeacon_data v).length = 30 := encode_length v h16
  have hdrop := encode_drop_25_bytes v h16 hM hm
  refine ⟨⟨?_, ?_, ?_, ?_⟩, fun x hx => ENDIAN_CHANGE_U16_eq x hx⟩
  · rw [show (25 : Nat) = 25 + 0 from rfl, getD_drop_add _ _ _ (by omega), hdrop]
    rfl
  · rw [show (26 : Nat) = 25 + 1 from rfl, getD_drop_add _ _ _ (by omega), hdrop]
    rfl
  · rw [show (27 : Nat) = 25 + 2 from rfl, getD_drop_add _ _ _ (by omega), hdrop]
    rfl
  · rw [show (28 : Nat) = 25 + 3 from rfl, getD_drop_add _ _ _ (by omega), hdrop]
    rfl

/-- The identity used to exhibit the big-endian invariant at major 0x1234. -/
def sample_vendor_config_1234 : esp_ble_ibeacon_vendor_t :=
  { proximity_uuid := [0xED, 0x17, 0xA8, 0x03, 0xD1, 0xAC, 0x4F, 0x04,
      0xA2, 0xF0, 0x78, 0x02, 0xB4, 0xC9, 0xC7, 0x0C]
    major := 0x1234
    minor := 0x5678
    measured_power := 0xC5 }

theorem encode_big_endian_witness :
    (esp_ble_config_ibeacon_data sample_vendor_config_1234).getD 25 0 = 0x12 ∧
      (esp_ble_config_ibeacon_data sample_vendor_config_1234).getD 26 0 = 0x34 ∧
      ENDIAN_CHANGE_U16 0x1234 = 0x3412 := by
  have h := encode_big_endian sample_vendor_config_1234 (by decide)
  refine ⟨h.1.1, h.1.2.1, ?_⟩
  have h2 := h.2 0x1234 (by norm_num)
  simpa using h2

/-! ## Identity store (main.c: `load_beacon_config_from_nvs`,
`save_beacon_config_to_nvs`, and the boot-time orchestration in `app_main`)

The NVS flash is modelled as the committed content of namespace
`beacon_cfg`: the two optional `u16` keys `major` and `minor`.  The process
state carries the flash content together with the two in-memory globals
`g_beacon_major` / `g_beacon_minor` (main.c lines 99-100).  The NVS
primitives the C code calls can each fail; a `NvsFailPlan` injects the
`esp_err_t` each primitive returns (`ESP_OK` meaning success), mirroring
the values the C code branches on. -/

/-- The committed content of the `beacon_cfg` NVS namespace. -/
structure NvsStore where
  major : Option Nat
  minor : Option Nat
  deriving DecidableEq, Repr

/-- Flash content plus the two process-scope globals of main.c. -/
structure SysState where
  store : NvsStore
  g_beacon_major : Nat
  g_beacon_minor : Nat
  deriving DecidableEq, Repr

/-- Injected `esp_err_t` results for the four NVS primitives
`save_beacon_config_to_nvs` calls (open, the two writes, commit);
`ESP_OK` means the primitive succeeds. -/
structure NvsFailPlan where
  openErr : Int
  setMajorErr : Int
  setMinorErr : Int
  commitErr : Int
  deriving DecidableEq, Repr

/-- Ghost trace of the NVS handle operations a call performs, used to state
the open/close discipline. -/
inductive NvsOp where
  | opened
  | wroteMajor
  | wroteMinor
  | committed
  | closed
  deriving DecidableEq, Repr

/-- Result of `save_beacon_config_to_nvs`: the returned `esp_err_t`, the
post state, and the ghost trace of handle operations. -/
structure SaveResult where
  err : Int
  state : SysState
  ops : List NvsOp
  deriving DecidableEq, Repr

/-- `save_beacon_config_to_nvs` (main.c lines 157-191): open the namespace
read-write; on open failure return the error (no handle exists).  Then
`nvs_set_u16` major, `nvs_set_u16` minor — each buffers the write into the
open handle and, on failure, the code closes the handle (discarding the
uncommitted buffer, so the flash is untouched) and returns the error.  Then
`nvs_commit`: only when it returns `ESP_OK` does the code update the
in-memory globals; a failed commit leaves the flash unchanged (the NVS
commit primitive is atomic).  The handle is closed and the commit's result
returned. -/
def save_beacon_config_to_nvs (fp : NvsFailPlan) (major minor : Nat)
    (s : SysState) : SaveResult :=
  if fp.openErr ≠ ESP_OK then
    { err := fp.openErr, state := s, ops := [] }
  else if fp.setMajorErr ≠ ESP_OK then
    { err := fp.setMajorErr, state := s, ops := [.opened, .closed] }
  else
    let pending1 : NvsStore := { s.store with major := some major }
    if fp.setMinorErr ≠ ESP_OK then
      { err := fp.setMinorErr, state := s, ops := [.opened, .wroteMajor, .closed] }
    else
      let pending2 : NvsStore := { pending1 with minor := some minor }
      if fp.commitErr ≠ ESP_OK then
        { err := fp.commitErr, state := s,
          ops := [.opened, .wroteMajor, .wroteMinor, .closed] }
      else
        { err := ESP_OK,
          state := { store := pending2, g_beacon_major := major,
                     g_beacon_minor := minor },
          ops := [.opened, .wroteMajor, .wroteMinor, .committed, .closed] }

/-- `load_beacon_config_from_nvs` (main.c lines 119-152): open the namespace
read-only; on open failure return `false` (caller keeps the defaults already
in the globals).  On success read the `major` key, substituting
`DEFAULT_BEACON_MAJOR` if it is absent, then independently the `minor` key,
substituting `DEFAULT_BEACON_MINOR` if it is absent; close and return
`true`. -/
def load_beacon_config_from_nvs (openErr : Int) (s : SysState) :
    Bool × SysState :=
  if openErr ≠ ESP_OK then
    (false, s)
  else
    let gmaj :=
      match s.store.major with
      | some v => v
      | none => DEFAULT_BEACON_MAJOR
    let gmin :=
      match s.store.minor with
      | some v => v
      | none => DEFAULT_BEACON_MINOR
    (true, { s with g_beacon_major := gmaj, g_beacon_minor := gmin })

/-- The NVS portion of `app_main` (main.c lines 739-743): globals start at
the compiled-in defaults, `load_beacon_config_from_nvs` runs, and if it
reported not-found *and* `g_beacon_minor != DEFAULT_BEACON_MINOR` the code
saves the current globals.  Returns the final state, the `config_loaded`
flag, and whether the save branch ran. -/
def app_main_nvs_boot (loadOpenErr : Int) (fp : NvsFailPlan)
    (store : NvsStore) : SysState × Bool × Bool :=
  let s0 : SysState :=
    { store := store, g_beacon_major := DEFAULT_BEACON_MAJOR,
      g_beacon_minor := DEFAULT_BEACON_MINOR }
  let lr := load_beacon_config_from_nvs loadOpenErr s0
  let config_loaded := lr.1
  let s1 := lr.2
  if ¬config_loaded ∧ s1.g_beacon_minor ≠ DEFAULT_BEACON_MINOR then
    ((save_beacon_config_to_nvs fp s1.g_beacon_major s1.g_beacon_minor s1).state,
      config_loaded, true)
  else
    (s1, config_loaded, false)

/-- **C1 (code_bug evaluation).** The first-boot save branch of `app_main`
is unreachable: after a not-found load the minor global still equals
`DEFAULT_BEACON_MINOR`, so the guard
`!config_loaded && g_beacon_minor != DEFAULT_BEACON_MINOR` is never true —
no boot ever performs the save, and the persisted store is left exactly as
it was.  In particular a first boot (open fails, empty store) persists
nothing, contradicting the claim that subsequent boots always find a
record. -/
theorem app_main_never_saves_defaults (loadOpenErr : Int) (fp : NvsFailPlan)
    (store : NvsStore) :
    (app_main_nvs_boot loadOpenErr fp store).2.2 = false ∧
      (app_main_nvs_boot loadOpenErr fp store).1.store = store := by
  unfold app_main_nvs_boot load_beacon_config_from_nvs
  by_cases h : loadOpenErr ≠ ESP_OK <;>
    simp [h, DEFAULT_BEACON_MINOR]

/-- **C3.** Identity Store Save: if the open, either individual write, or the
commit fails, the remaining steps are aborted (nothing is ever committed on a
failing run), every opened handle is closed, the specific error of the first
failing primitive is propagated to the caller, and the whole state — the
flash content and the in-memory identity `g_beacon_major`/`g_beacon_minor` —
is left unchanged.  The in-memory identity changes only on a run that
returns `ESP_OK`, i.e. only after a successful commit, and then it carries
exactly the saved values. -/
theorem save_nvs_error_atomicity (fp : NvsFailPlan) (major minor : Nat)
    (s : SysState) :
    (fp.openErr ≠ ESP_OK →
      (save_beacon_config_to_nvs fp major minor s).err = fp.openErr) ∧
    (fp.openErr = ESP_OK → fp.setMajorErr ≠ ESP_OK →
      (save_beacon_config_to_nvs fp major minor s).err = fp.setMajorErr) ∧
    (fp.openErr = ESP_OK → fp.setMajorErr = ESP_OK → fp.setMinorErr ≠ ESP_OK →
      (save_beacon_config_to_nvs fp major minor s).err = fp.setMinorErr) ∧
    (fp.openErr = ESP_OK → fp.setMajorErr = ESP_OK → fp.setMinorErr = ESP_OK →
      fp.commitErr ≠ ESP_OK →
      (save_beacon_config_to_nvs fp major minor s).err = fp.commitErr) ∧
    ((save_beacon_config_to_nvs fp major minor s).err ≠ ESP_OK →
      (save_beacon_config_to_nvs fp major minor s).state = s ∧
        NvsOp.committed ∉ (save_beacon_config_to_nvs fp major minor s).ops) ∧
    ((save_beacon_config_to_nvs fp major minor s).ops.count .opened =
      (save_beacon_config_to_nvs fp major minor s).ops.count .closed) ∧
    (((save_beacon_config_to_nvs fp major minor s).state.g_beacon_major ≠
          s.g_beacon_major ∨
        (save_beacon_config_to_nvs fp major minor s).state.g_beacon_minor ≠
          s.g_beacon_minor) →
      (save_beacon_config_to_nvs fp major minor s).err = ESP_OK ∧
        NvsOp.committed ∈ (save_beacon_config_to_nvs fp major minor s).ops) ∧
    ((save_beacon_config_to_nvs fp major minor s).err = ESP_OK →
      (save_beacon_config_to_nvs fp major minor s).state =
        { store := { major := some major, minor := some minor },
          g_beacon_major := major, g_beacon_minor := minor }) := by
  unfold save_beacon_config_to_nvs
  by_cases h1 : fp.openErr ≠ ESP_OK
  · simp [h1]
  · by_cases h2 : fp.setMajorErr ≠ ESP_OK
    · simp [h1, h2]
    · by_cases h3 : fp.setMinorErr ≠ ESP_OK
      · simp [h1, h2, h3]
      · by_cases h4 : fp.commitErr ≠ ESP_OK
        · simp [h1, h2, h3, h4]
        · simp at h1 h2 h3 h4
          simp [h1, h2, h3, h4, ESP_OK]

theorem save_nvs_error_atomicity_witness :
    ((⟨ESP_OK, ESP_OK, ESP_OK, ESP_FAIL⟩ : NvsFailPlan).commitErr ≠ ESP_OK) ∧
      (save_beacon_config_to_nvs ⟨ESP_OK, ESP_OK, ESP_OK, ESP_FAIL⟩ 77 3
          ⟨⟨none, none⟩, 100, 15⟩).err = ESP_FAIL ∧
      (save_beacon_config_to_nvs ⟨ESP_OK, ESP_OK, ESP_OK, ESP_FAIL⟩ 77 3
          ⟨⟨none, none⟩, 100, 15⟩).state = ⟨⟨none, none⟩, 100, 15⟩ := by
  have h := save_nvs_error_atomicity ⟨ESP_OK, ESP_OK, ESP_OK, ESP_FAIL⟩ 77 3
    ⟨⟨none, none⟩, 100, 15⟩
  refine ⟨by decide, ?_, ?_⟩
  · exact h.2.2.2.1 rfl rfl rfl (by decide)
  · exact (h.2.2.2.2.1 (by decide)).1

/-- **C4.** Identity Store Load with a successfully opened namespace reads
the two keys independently: each absent key — and only that key — is
replaced by its compiled-in default, the present key keeps its stored value,
and Load still reports success.  In particular after `Save(77, 3)` and
external deletion of only the `minor` key, Load yields major = 77 and
minor = `DEFAULT_BEACON_MINOR`. -/
theorem load_nvs_independent_defaults (openErr : Int) (s : SysState)
    (hopen : openErr = ESP_OK) :
    ((load_beacon_config_from_nvs openErr s).1 = true ∧
      (load_beacon_config_from_nvs openErr s).2.g_beacon_major =
        s.store.major.getD DEFAULT_BEACON_MAJOR ∧
      (load_beacon_config_from_nvs openErr s).2.g_beacon_minor =
        s.store.minor.getD DEFAULT_BEACON_MINOR) ∧
    (∀ s0 : SysState,
      (load_beacon_config_from_nvs ESP_OK
          { store :=
              { major :=
                  (save_beacon_config_to_nvs ⟨ESP_OK, ESP_OK, ESP_OK, ESP_OK⟩
                      77 3 s0).state.store.major
                minor := none }
            g_beacon_major := s0.g_beacon_major
            g_beacon_minor := s0.g_beacon_minor }).2.g_beacon_major = 77 ∧
      (load_beacon_config_from_nvs ESP_OK
          { store :=
              { major :=
                  (save_beacon_config_to_nvs ⟨ESP_OK, ESP_OK, ESP_OK, ESP_OK⟩
                      77 3 s0).state.store.major
                minor := none }
            g_beacon_major := s0.g_beacon_major
            g_beacon_minor := s0.g_beacon_minor }).2.g_beacon_minor =
        DEFAULT_BEACON_MINOR) := by
  constructor
  · subst hopen
    unfold load_beacon_config_from_nvs
    rcases s with ⟨⟨maj, min'⟩, gM, gm⟩
    cases maj <;> cases min' <;> simp
  · intro s0
    unfold load_beacon_config_from_nvs save_beacon_config_to_nvs
    simp

theorem load_nvs_independent_defaults_witness :
    ((load_beacon_config_from_nvs ESP_OK ⟨⟨some 77, none⟩, 1, 2⟩).1 = true ∧
      (load_beacon_config_from_nvs ESP_OK
          ⟨⟨some 77, none⟩, 1, 2⟩).2.g_beacon_major = 77 ∧
      (load_beacon_config_from_nvs ESP_OK
          ⟨⟨some 77, none⟩, 1, 2⟩).2.g_beacon_minor = DEFAULT_BEACON_MINOR) := by
  have h := (load_nvs_independent_defaults ESP_OK ⟨⟨some 77, none⟩, 1, 2⟩ rfl).1
  simpa using h

/-! ## Advertising / GAP event handler (main.c lines 418-450)

`gap_event_handler` is a stateless `switch` over the incoming GAP event:
it keeps no state variable between invocations.  Its observable behaviour
per event is the list of radio-stack commands it issues and the status it
logs; a sequence of events is handled by concatenating the per-event
commands. -/

/-- The fixed advertising parameter block `adv_params` (main.c lines
418-425).  Enum values are the platform's: `ADV_TYPE_NONCONN_IND = 3`,
`BLE_ADDR_TYPE_PUBLIC = 0`, `ADV_CHNL_ALL = 7`,
`ADV_FILTER_ALLOW_SCAN_ANY_CON_ANY = 0`.  The interval is the millisecond
configuration value converted to 0.625 ms radio units. -/
structure esp_ble_adv_params_t where
  adv_int_min : Nat
  adv_int_max : Nat
  adv_type : Nat
  own_addr_type : Nat
  channel_map : Nat
  adv_filter_policy : Nat
  deriving DecidableEq, Repr

/-- main.c lines 418-425. -/
def adv_params : esp_ble_adv_params_t :=
  { adv_int_min := ADVERTISING_INTERVAL_MS * 1000 / 625,
    adv_int_max := ADVERTISING_INTERVAL_MS * 1000 / 625,
    adv_type := 3,
    own_addr_type := 0,
    channel_map := 7,
    adv_filter_policy := 0 }

/-- The GAP events delivered to the handler: the raw-payload-set-complete
event, the advertising-start-complete event with its status, and any other
event (falling to the `switch`'s `default`). -/
inductive GapEvent where
  | advDataRawSetComplete
  | advStartComplete (status : Nat)
  | other (code : Nat)
  deriving DecidableEq, Repr

/-- A command issued to the radio stack by the handler.  The handler's only
radio command is `esp_ble_gap_start_advertising`. -/
inductive RadioCmd where
  | startAdvertising (params : esp_ble_adv_params_t)
  deriving DecidableEq, Repr

/-- What one handler invocation logs. -/
inductive GapReport where
  | quiet
  | broadcasting
  | advStartFailed (status : Nat)
  deriving DecidableEq, Repr

/-- Output of one `gap_event_handler` invocation: the radio commands issued
and the status logged. -/
structure HandlerOutput where
  cmds : List RadioCmd
  report : GapReport
  deriving DecidableEq, Repr

/-- `gap_event_handler` (main.c lines 430-450), one invocation: on
`ESP_GAP_BLE_ADV_DATA_RAW_SET_COMPLETE_EVT` it calls
`esp_ble_gap_start_advertising(&adv_params)`; on
`ESP_GAP_BLE_ADV_START_COMPLETE_EVT` it inspects the status — non-success is
logged as a failure, success as broadcasting — and issues no command;
every other event hits `default: break`. -/
def gap_event_handler (e : GapEvent) : HandlerOutput :=
  match e with
  | .advDataRawSetComplete =>
      { cmds := [.startAdvertising adv_params], report := .quiet }
  | .advStartComplete status =>
      if status ≠ ESP_BT_STATUS_SUCCESS then
        { cmds := [], report := .advStartFailed status }
      else
        { cmds := [], report := .broadcasting }
  | .other _ => { cmds := [], report := .quiet }

/-- All radio commands issued over a sequence of delivered GAP events. -/
def gap_events_commands : List GapEvent → List RadioCmd
  | [] => []
  | e :: rest => (gap_event_handler e).cmds ++ gap_events_commands rest

/-- Whether an event is the payload-set-complete event. -/
def is_adv_data_raw_set_complete : GapEvent → Bool
  | .advDataRawSetComplete => true
  | _ => false

/-- **C2 (counterexample).** Delivering the payload-set-complete event twice
in a row issues `start_advertising` twice, not once: the handler is a
stateless `switch`, so the transition is not idempotent and the duplicate
event is not ignored. -/
theorem duplicate_payload_set_restarts_advertising :
    gap_events_commands [.advDataRawSetComplete, .advDataRawSetComplete] =
      [.startAdvertising adv_params, .startAdvertising adv_params] ∧
    (gap_events_commands
        [.advDataRawSetComplete, .advDataRawSetComplete]).length = 2 ∧
    ¬(gap_events_commands
        [.advDataRawSetComplete, .advDataRawSetComplete]).length = 1 := by
  refine ⟨rfl, rfl, by decide⟩

/-- **C2 (amended).** The handler is stateless: every delivery of the
payload-set-complete event issues exactly one `start_advertising` command —
so `n` deliveries issue `n` commands — and no other event (duplicate
start-complete events, late or unknown events) issues any radio command.
Over any event sequence, the issued radio commands are exactly one
`start_advertising` per payload-set-complete event received. -/
theorem gap_handler_one_start_per_payload_set (evs : List GapEvent) :
    gap_events_commands evs =
      List.replicate (evs.countP is_adv_data_raw_set_complete)
        (.startAdvertising adv_params) := by
  induction evs with
  | nil => rfl
  | cons e rest ih =>
      cases e with
      | advDataRawSetComplete =>
          simp [gap_events_commands, gap_event_handler, ih, List.countP_cons,
            is_adv_data_raw_set_complete, List.replicate_succ]
      | advStartComplete status =>
          by_cases h : status ≠ ESP_BT_STATUS_SUCCESS <;>
            simp [gap_events_commands, gap_event_handler, h, ih,
              List.countP_cons, is_adv_data_raw_set_complete]
      | other code =>
          simp [gap_events_commands, gap_event_handler, ih, List.countP_cons,
            is_adv_data_raw_set_complete]

/-- **C6.** When the advertising-start-complete event arrives with a
non-success status, the handler reports the failure (the terminal `Failed`
outcome — it is logged, never retried) and issues no radio command at all:
the start is not re-attempted automatically. -/
theorem adv_start_failure_reported_no_retry (status : Nat)
    (h : status ≠ ESP_BT_STATUS_SUCCESS) :
    gap_event_handler (.advStartComplete status) =
      { cmds := [], report := .advStartFailed status } := by
  simp [gap_event_handler, h]

theorem adv_start_failure_reported_no_retry_witness :
    gap_event_handler (.advStartComplete 1) =
      { cmds := [], report := .advStartFailed 1 } :=
  adv_start_failure_reported_no_retry 1 (by decide)

/-! ## Update lifecycle (main.c: `perform_ota_update` lines 645-685,
`ota_task` lines 690-705)

One check cycle calls `esp_https_ota` and branches on its `esp_err_t`
result: `ESP_OK` (image applied), `ESP_ERR_NOT_FOUND` (no newer version),
anything else (failure).  The cycle's externally visible effects — webhook
notifications, the LED pulse, delays, the reboot — are modelled as an
action trace. -/

/-- One externally visible action of the OTA task. -/
inductive OtaAction where
  | webhookSuccess (msg : String)
  | webhookError (msg : String)
  | ledBlink
  | delayMs (n : Nat)
  | restart
  deriving DecidableEq, Repr

/-- Modelled platform function `esp_err_to_name`: maps an `esp_err_t` to its
printable name.  The ESP-IDF implementation returns the error's name when it
is known and the fixed string `"UNKNOWN ERROR"` otherwise — a non-empty
string for every code. -/
def esp_err_to_name (e : Int) : String :=
  if e = ESP_OK then "ESP_OK"
  else if e = ESP_FAIL then "ESP_FAIL"
  else if e = ESP_ERR_NOT_FOUND then "ESP_ERR_NOT_FOUND"
  else if e = ESP_ERR_NVS_NOT_FOUND then "ESP_ERR_NVS_NOT_FOUND"
  else "UNKNOWN ERROR"

/-- `blink_led_ota_error` (main.c lines 634-640): a single 500 ms LED pulse. -/
def blink_led_ota_error : List OtaAction :=
  [.ledBlink, .delayMs 500]

/-- `perform_ota_update` (main.c lines 645-685), as the action trace of one
cycle, branching on the result `ret` of `esp_https_ota`:
`ESP_OK` → success webhook, 1000 ms delay, `esp_restart()`;
`ESP_ERR_NOT_FOUND` → success-style "no update needed" webhook, no reboot;
anything else → one LED pulse, one failure webhook carrying
`esp_err_to_name(ret)`, no reboot. -/
def perform_ota_update (ret : Int) : List OtaAction :=
  if ret = ESP_OK then
    [.webhookSuccess "Firmware updated successfully - rebooting",
      .delayMs 1000, .restart]
  else if ret = ESP_ERR_NOT_FOUND then
    [.webhookSuccess "No update needed - already on latest firmware"]
  else
    blink_led_ota_error ++ [.webhookError (esp_err_to_name ret)]

/-- One iteration of the `ota_task` loop (main.c lines 698-704): perform the
update check, then — unless the device restarted, since `esp_restart` does
not return — sleep for the fixed inter-check interval before the next
iteration. -/
def ota_task_iteration (ret : Int) : List OtaAction :=
  let t := perform_ota_update ret
  if OtaAction.restart ∈ t then t
  else t ++ [.delayMs (OTA_CHECK_INTERVAL_SEC * 1000)]

/-- `true` for a success-style webhook action. -/
def is_webhook_success : OtaAction → Bool
  | .webhookSuccess _ => true
  | _ => false

/-- `true` for a failure webhook action. -/
def is_webhook_error : OtaAction → Bool
  | .webhookError _ => true
  | _ => false

/-- **C5.** Each update-check iteration distinguishes exactly three
outcomes: a successful apply sends exactly one success notification, then a
fixed 1000 ms delay, then the restart (the notification precedes the
reboot); an explicit "no newer version" result sends exactly one
success-style "no update needed" notification and does not reboot; any
other result pulses the indicator once, sends exactly one failure
notification carrying a non-empty error description, does not reboot, and
the iteration ends with the fixed inter-check sleep. -/
theorem ota_cycle_three_outcomes (e : Int) (h1 : e ≠ ESP_OK)
    (h2 : e ≠ ESP_ERR_NOT_FOUND) :
    (perform_ota_update ESP_OK =
        [.webhookSuccess "Firmware updated successfully - rebooting",
          .delayMs 1000, .restart] ∧
      (perform_ota_update ESP_OK).countP is_webhook_success = 1) ∧
    (perform_ota_update ESP_ERR_NOT_FOUND =
        [.webhookSuccess "No update needed - already on latest firmware"] ∧
      (perform_ota_update ESP_ERR_NOT_FOUND).countP is_webhook_success = 1 ∧
      OtaAction.restart ∉ perform_ota_update ESP_ERR_NOT_FOUND) ∧
    (perform_ota_update e =
        [.ledBlink, .delayMs 500, .webhookError (esp_err_to_name e)] ∧
      (perform_ota_update e).countP is_webhook_error = 1 ∧
      esp_err_to_name e ≠ "" ∧
      OtaAction.restart ∉ perform_ota_update e ∧
      ota_task_iteration e =
        perform_ota_update e ++ [.delayMs (OTA_CHECK_INTERVAL_SEC * 1000)]) := by
  have hperf : perform_ota_update e =
      [.ledBlink, .delayMs 500, .webhookError (esp_err_to_name e)] := by
    simp [perform_ota_update, blink_led_ota_error, h1, h2]
  refine ⟨⟨rfl, rfl⟩, ⟨rfl, rfl, by decide⟩, hperf, ?_, ?_, ?_, ?_⟩
  · rw [hperf]; rfl
  · unfold esp_err_to_name
    split_ifs <;> simp
  · rw [hperf]; simp
  · unfold ota_task_iteration
    rw [hperf]
    simp

theorem ota_cycle_three_outcomes_witness :
    perform_ota_update ESP_FAIL =
        [.ledBlink, .delayMs 500, .webhookError (esp_err_to_name ESP_FAIL)] ∧
      esp_err_to_name ESP_FAIL ≠ "" ∧
      OtaAction.restart ∉ perform_ota_update ESP_FAIL := by
  have h := ota_cycle_three_outcomes ESP_FAIL (by decide) (by decide)
  exact ⟨h.2.2.1, h.2.2.2.2.1, h.2.2.2.2.2.1⟩

/-! ## UUID string parsing (main.c: `parse_uuid_string`, lines 402-415)

The C loop walks the NUL-terminated string: hyphens are skipped; otherwise
the two characters at `i`, `i+1` are copied into a 3-byte buffer
`{uuid_str[i], uuid_str[i+1], '\0'}`, converted with `strtol(..., 16)`,
cast to `uint8_t`, and written at `byte_index` (guarded by
`byte_index < 16`); `i` then advances by 2.  The string is modelled as the
list of its characters before the terminator; reads at or beyond the
terminator yield NUL (the memory following the string is modelled as NUL,
matching the defined executions of the loop).  The output buffer is the
list of bytes written, in order, starting at index 0. -/

/-- The value `strtol` base 16 assigns to one character, by ASCII code:
`'0'..'9'`, `'a'..'f'`, `'A'..'F'`; `none` for every other character. -/
def hex_digit_val (c : Char) : Option Nat :=
  let n := c.toNat
  if 48 ≤ n ∧ n ≤ 57 then some (n - 48)
  else if 97 ≤ n ∧ n ≤ 102 then some (n - 87)
  else if 65 ≤ n ∧ n ≤ 70 then some (n - 55)
  else none

/-- Modelled libc `strtol(hex_pair, NULL, 16)` on the two-character buffer
`{c, d, '\0'}` built by `parse_uuid_string` (`d` stands for the NUL when the
pair is cut short by the end of the string): two leading hex digits give the
pair value; a single leading hex digit gives its value (`strtol` stops at
the first non-digit, which also covers the `"0x"` prefix whose digit part is
empty); a leading whitespace or sign is consumed before at most one
remaining digit; anything else parses no digits and yields 0. -/
def strtol_hex_pair (c d : Char) : Int :=
  match hex_digit_val c with
  | some hc =>
      match hex_digit_val d with
      | some hd => 16 * (hc : Int) + (hd : Int)
      | none => (hc : Int)
  | none =>
      if c.isWhitespace ∨ c = '+' then
        match hex_digit_val d with
        | some hd => (hd : Int)
        | none => 0
      else if c = '-' then
        match hex_digit_val d with
        | some hd => -(hd : Int)
        | none => 0
      else 0

/-- The byte the loop stores: `(uint8_t)strtol(hex_pair, NULL, 16)`, i.e.
the `long` value reduced modulo 256. -/
def hex_pair_byte (c d : Char) : Nat :=
  ((strtol_hex_pair c d) % 256).toNat

/-- The loop of `parse_uuid_string` (main.c lines 406-414): given the
characters still ahead of position `i` and the current `byte_index`.  The
loop stops at the terminator or once `byte_index` reaches 16; a hyphen
advances `i` by one; otherwise the pair at `i`, `i+1` is converted and
written and `i` advances by two (when the pair is cut short by the
terminator, the second buffer character is NUL and the next loop test reads
past it — modelled as NUL, ending the loop). -/
def parse_uuid_go : List Char → Nat → List Nat
  | [], _ => []
  | c :: rest, byte_index =>
    if 16 ≤ byte_index then []
    else if c = '-' then parse_uuid_go rest byte_index
    else
      match rest with
      | [] => [hex_pair_byte c (Char.ofNat 0)]
      | d :: rest2 => hex_pair_byte c d :: parse_uuid_go rest2 (byte_index + 1)

/-- `parse_uuid_string` (main.c lines 402-415): the bytes written into
`uuid_bytes`, in order, starting at index 0. -/
def parse_uuid_string (uuid_str : List Char) : List Nat :=
  parse_uuid_go uuid_str 0

/-- The value of each consecutive hex-digit pair of a character list. -/
def hex_pair_values : List Char → List Nat
  | c :: d :: rest =>
      (16 * (hex_digit_val c).getD 0 + (hex_digit_val d).getD 0) ::
        hex_pair_values rest
  | _ => []

theorem hex_digit_val_lt (c : Char) (h : Nat) (hh : hex_digit_val c = some h) :
    h < 16 := by
  unfold hex_digit_val at hh
  simp only at hh
  split_ifs at hh <;> simp_all <;> omega

theorem hex_digit_val_ne_hyphen (c : Char) (hc : (hex_digit_val c).isSome) :
    c ≠ '-' := by
  intro h
  subst h
  simp [hex_digit_val] at hc

theorem hex_pair_byte_of_hex (c d : Char) (hc hd : Nat)
    (h1 : hex_digit_val c = some hc) (h2 : hex_digit_val d = some hd) :
    hex_pair_byte c d = 16 * hc + hd := by
  have b1 : hc < 16 := hex_digit_val_lt c hc h1
  have b2 : hd < 16 := hex_digit_val_lt d hd h2
  unfold hex_pair_byte strtol_hex_pair
  rw [h1, h2]
  have e : (16 * (hc : Int) + (hd : Int)) % 256 = 16 * (hc : Int) + (hd : Int) :=
    Int.emod_eq_of_lt (by omega) (by omega)
  rw [e]
  omega

theorem parse_uuid_go_length_le (cs : List Char) (bI : Nat) :
    (parse_uuid_go cs bI).length ≤ 16 - bI := by
  induction cs, bI using parse_uuid_go.induct with
  | case1 bI => simp [parse_uuid_go]
  | case2 c rest bI hge =>
      rw [parse_uuid_go.eq_def]
      simp [hge]
  | case3 rest bI hlt ih =>
      rw [parse_uuid_go.eq_def]
      simp only [hlt, if_false, if_pos rfl, ite_true, ite_false]
      simpa using ih
  | case4 c bI hlt hne =>
      rw [parse_uuid_go.eq_def]
      simp [hlt, hne]
      omega
  | case5 c bI hlt hne d rest2 ih =>
      rw [parse_uuid_go.eq_def]
      simp [hlt, hne]
      omega

theorem parse_uuid_go_hyphen (rest : List Char) (bI : Nat) (h : bI < 16) :
    parse_uuid_go ('-' :: rest) bI = parse_uuid_go rest bI := by
  rw [parse_uuid_go.eq_def]
  simp [Nat.not_le.mpr h]

theorem parse_uuid_go_pair (c d : Char) (rest2 : List Char) (bI : Nat)
    (h : bI < 16) (hne : c ≠ '-') :
    parse_uuid_go (c :: d :: rest2) bI =
      hex_pair_byte c d :: parse_uuid_go rest2 (bI + 1) := by
  rw [parse_uuid_go.eq_def]
  simp [Nat.not_le.mpr h, hne]

/-- Running the loop over an even-length run of hex digits writes the value
of each consecutive pair and leaves the rest of the string to continue at
the advanced byte index. -/
theorem parse_uuid_go_hex_segment (hs : List Char) :
    ∀ (rest : List Char) (bI : Nat),
      (∀ c ∈ hs, (hex_digit_val c).isSome) →
      hs.length % 2 = 0 →
      bI + hs.length / 2 ≤ 16 →
      parse_uuid_go (hs ++ rest) bI =
        hex_pair_values hs ++ parse_uuid_go rest (bI + hs.length / 2) := by
  induction hs using hex_pair_values.induct with
  | case1 c d t ih =>
      intro rest bI hhex heven hle
      have hc : (hex_digit_val c).isSome := hhex c (by simp)
      have hd : (hex_digit_val d).isSome := hhex d (by simp)
      obtain ⟨vc, hvc⟩ := Option.isSome_iff_exists.mp hc
      obtain ⟨vd, hvd⟩ := Option.isSome_iff_exists.mp hd
      have hlen : (c :: d :: t).length / 2 = t.length / 2 + 1 := by
        simp [List.length_cons]
        omega
      have hblt : bI < 16 := by
        rw [hlen] at hle
        omega
      have heven' : t.length % 2 = 0 := by
        simp [List.length_cons] at heven
        omega
      have hle' : (bI + 1) + t.length / 2 ≤ 16 := by
        rw [hlen] at hle
        omega
      have step := parse_uuid_go_pair c d (t ++ rest) bI hblt
        (hex_digit_val_ne_hyphen c hc)
      rw [List.cons_append, List.cons_append, step,
        ih rest (bI + 1) (fun x hx => hhex x (by simp [hx])) heven' hle']
      rw [show hex_pair_values (c :: d :: t) =
          (16 * (hex_digit_val c).getD 0 + (hex_digit_val d).getD 0) ::
            hex_pair_values t from rfl]
      rw [hex_pair_byte_of_hex c d vc vd hvc hvd, hvc, hvd, hlen]
      rw [show bI + (t.length / 2 + 1) = bI + 1 + t.length / 2 by omega]
      simp
  | case2 x hx =>
      intro rest bI hhex heven hle
      rcases x with _ | ⟨c, _ | ⟨d, t⟩⟩
      · simp [hex_pair_values]
      · simp at heven
      · exact absurd rfl (fun h => hx c d t h)

theorem hex_pair_values_append (a b : List Char) (ha : a.length % 2 = 0) :
    hex_pair_values (a ++ b) = hex_pair_values a ++ hex_pair_values b := by
  induction a using hex_pair_values.induct with
  | case1 c d t ih =>
      have ht : t.length % 2 = 0 := by
        simp [List.length_cons] at ha
        omega
      simp only [List.cons_append]
      rw [show hex_pair_values (c :: d :: (t ++ b)) =
          (16 * (hex_digit_val c).getD 0 + (hex_digit_val d).getD 0) ::
            hex_pair_values (t ++ b) from rfl]
      rw [ih ht]
      rfl
  | case2 x hx =>
      rcases x with _ | ⟨c, _ | ⟨d, t⟩⟩
      · simp [hex_pair_values]
      · simp at ha
      · exact absurd rfl (fun h => hx c d t h)

theorem hex_pair_values_length (a : List Char) :
    (hex_pair_values a).length = a.length / 2 := by
  induction a using hex_pair_values.induct with
  | case1 c d t ih =>
      rw [show hex_pair_values (c :: d :: t) =
          (16 * (hex_digit_val c).getD 0 + (hex_digit_val d).getD 0) ::
            hex_pair_values t from rfl]
      simp [ih]
      omega
  | case2 x hx =>
      rcases x with _ | ⟨c, _ | ⟨d, t⟩⟩
      · simp [hex_pair_values]
      · simp [hex_pair_values]
      · exact absurd rfl (fun h => hx c d t h)

/-- **C10.** For every NUL-terminated input string, `parse_uuid_string`
writes at most 16 bytes into the output buffer — the writes are consecutive
from index 0, so no write ever lands past index 15; and for a well-formed
36-character hyphenated hex UUID string (8-4-4-4-12 groups of hex digits),
it writes exactly 16 bytes, each being the value of the corresponding
consecutive hex-digit pair with the hyphens skipped. -/
theorem parse_uuid_string_bounded_and_exact :
    (∀ cs : List Char, (parse_uuid_string cs).length ≤ 16) ∧
    (∀ g1 g2 g3 g4 g5 : List Char,
      g1.length = 8 → g2.length = 4 → g3.length = 4 → g4.length = 4 →
      g5.length = 12 →
      (∀ c ∈ g1 ++ g2 ++ g3 ++ g4 ++ g5, (hex_digit_val c).isSome) →
      parse_uuid_string
          (g1 ++ '-' :: (g2 ++ '-' :: (g3 ++ '-' :: (g4 ++ '-' :: g5)))) =
        hex_pair_values (g1 ++ g2 ++ g3 ++ g4 ++ g5) ∧
      (parse_uuid_string
          (g1 ++ '-' :: (g2 ++ '-' :: (g3 ++ '-' :: (g4 ++ '-' :: g5))))).length =
        16) := by
  constructor
  · intro cs
    have h := parse_uuid_go_length_le cs 0
    unfold parse_uuid_string
    omega
  · intro g1 g2 g3 g4 g5 h1 h2 h3 h4 h5 hhex
    have hx1 : ∀ c ∈ g1, (hex_digit_val c).isSome := fun c hc =>
      hhex c (by simp [hc])
    have hx2 : ∀ c ∈ g2, (hex_digit_val c).isSome := fun c hc =>
      hhex c (by simp [hc])
    have hx3 : ∀ c ∈ g3, (hex_digit_val c).isSome := fun c hc =>
      hhex c (by simp [hc])
    have hx4 : ∀ c ∈ g4, (hex_digit_val c).isSome := fun c hc =>
      hhex c (by simp [hc])
    have hx5 : ∀ c ∈ g5, (hex_digit_val c).isSome := fun c hc =>
      hhex c (by simp [hc])
    have heq : parse_uuid_string
        (g1 ++ '-' :: (g2 ++ '-' :: (g3 ++ '-' :: (g4 ++ '-' :: g5)))) =
        hex_pair_values (g1 ++ g2 ++ g3 ++ g4 ++ g5) := by
      unfold parse_uuid_string
      rw [parse_uuid_go_hex_segment g1 _ 0 hx1 (by omega) (by omega)]
      rw [show 0 + g1.length / 2 = 4 by omega]
      rw [parse_uuid_go_hyphen _ 4 (by omega)]
      rw [parse_uuid_go_hex_segment g2 _ 4 hx2 (by omega) (by omega)]
      rw [show 4 + g2.length / 2 = 6 by omega]
      rw [parse_uuid_go_hyphen _ 6 (by omega)]
      rw [parse_uuid_go_hex_segment g3 _ 6 hx3 (by omega) (by omega)]
      rw [show 6 + g3.length / 2 = 8 by omega]
      rw [parse_uuid_go_hyphen _ 8 (by omega)]
      rw [parse_uuid_go_hex_segment g4 _ 8 hx4 (by omega) (by omega)]
      rw [show 8 + g4.length / 2 = 10 by omega]
      rw [parse_uuid_go_hyphen _ 10 (by omega)]
      have seg5 := parse_uuid_go_hex_segment g5 [] 10 hx5 (by omega) (by omega)
      rw [List.append_nil] at seg5
      rw [seg5]
      rw [show parse_uuid_go [] (10 + g5.length / 2) = [] from by
        simp [parse_uuid_go]]
      rw [List.append_nil]
      rw [hex_pair_values_append (g1 ++ g2 ++ g3 ++ g4) g5
        (by simp [h1, h2, h3, h4])]
      rw [hex_pair_values_append (g1 ++ g2 ++ g3) g4 (by simp [h1, h2, h3])]
      rw [hex_pair_values_append (g1 ++ g2) g3 (by simp [h1, h2])]
      rw [hex_pair_values_append g1 g2 (by simp [h1])]
      simp [List.append_assoc]
    refine ⟨heq, ?_⟩
    rw [heq, hex_pair_values_length]
    simp [h1, h2, h3, h4, h5]

theorem parse_uuid_string_bounded_and_exact_witness :
    parse_uuid_string
        (['E', 'D', '1', '7', 'A', '8', '0', '3'] ++ '-' ::
          (['D', '1', 'A', 'C'] ++ '-' ::
            (['4', 'F', '0', '4'] ++ '-' ::
              (['A', '2', 'F', '0'] ++ '-' ::
                ['7', '8', '0', '2', 'B', '4', 'C', '9', 'C', '7', '0', 'C'])))) =
      [0xED, 0x17, 0xA8, 0x03, 0xD1, 0xAC, 0x4F, 0x04, 0xA2, 0xF0, 0x78, 0x02,
        0xB4, 0xC9, 0xC7, 0x0C] := by
  have h := parse_uuid_string_bounded_and_exact.2
    ['E', 'D', '1', '7', 'A', '8', '0', '3'] ['D', '1', 'A', 'C']
    ['4', 'F', '0', '4'] ['A', '2', 'F', '0']
    ['7', '8', '0', '2', 'B', '4', 'C', '9', 'C', '7', '0', 'C']
    rfl rfl rfl rfl rfl (by decide)
  rw [h.1]
  decide

end IBeacon
